import Mathlib

/-!
# Verification of the Cerebro local cryptographic vault core

Shallow embedding of the crypto subsystem of the repository
(`src/crypto/vault.py`, `src/crypto/key_manager.py`,
`src/crypto/passphrase.py`, `src/crypto/hoeilaart_vault.py`).

Byte strings are modelled symbolically: the type `Val` is a free algebra
over the cryptographic primitives the code calls (AES-256-GCM, AES-KW,
HKDF-SHA256, Argon2id, PBKDF2-HMAC-SHA256, X25519 shared secrets, the
`json` and `base64` codecs).  Each primitive from the `cryptography` /
`argon2` / `hashlib` / stdlib libraries becomes a constructor (for the
forward direction) together with a pattern-matching partial inverse (for
the fallible backward direction); authenticated decryption succeeds
exactly when the key and nonce match the ones used at encryption time,
which is the ideal-functionality reading of an AEAD.  Randomness drawn
by `os.urandom` / key generation is passed to each operation as an
explicit argument.  File-system state is explicit: each component's
persistent files appear as fields of a state structure, and
`LocalVaultCache.save` additionally returns the trace of file-system
operations it performs, so that atomicity (write-temp-then-rename versus
direct write) is observable.
-/

namespace Cerebro

mutual

/-- Symbolic byte-strings / values flowing through the crypto subsystem.
JSON values (`vnull` … `vobj`) model Python values that `json.dumps`
accepts; the remaining constructors model outputs of library
primitives. -/
inductive Val where
  /-- Python `None`. -/
  | vnull : Val
  /-- A Python `bool`. -/
  | vbool (b : Bool) : Val
  /-- A Python number. -/
  | vint (n : Int) : Val
  /-- A Python `str`. -/
  | vstr (s : String) : Val
  /-- A Python `list`. -/
  | varr (xs : ValList) : Val
  /-- A Python `dict` with `str` keys, as an association list. -/
  | vobj (kvs : ValFields) : Val
  /-- A literal byte string (e.g. fresh `os.urandom` output). -/
  | bytes (bs : List Nat) : Val
  /-- `base64.b64encode` of a byte string. -/
  | b64 (v : Val) : Val
  /-- `json.dumps(v).encode("utf-8")`: the serialized text of `v`. -/
  | jsonText (v : Val) : Val
  /-- `AESGCM(key).encrypt(nonce, pt, None)`. -/
  | enc (key nonce pt : Val) : Val
  /-- `aes_key_wrap(kek, dek)`. -/
  | wrap (kek dek : Val) : Val
  /-- `HKDF(SHA256, 32, salt=None, info).derive(secret)`. -/
  | hkdfSha256 (secret : Val) (info : String) : Val
  /-- `argon2.low_level.hash_secret_raw(pass, salt, 3, 65536, 4, 32, Type.ID)`. -/
  | argon2id (pass : String) (salt : Val) : Val
  /-- `hashlib.pbkdf2_hmac('sha256', pass, salt, iters, dklen=32)`. -/
  | pbkdf2Sha256 (pass : String) (salt : Val) (iters : Nat) : Val
  /-- An X25519 shared secret; the two scalars are stored sorted so that
  `a.exchange(pub b) = b.exchange(pub a)` holds definitionally. -/
  | dh (lo hi : Nat) : Val
  /-- `private_bytes(Raw, Raw, NoEncryption())` of an X25519 private key. -/
  | privRaw (k : Nat) : Val
  /-- `public_bytes(Raw, Raw)` of an X25519 public key. -/
  | pubRaw (k : Nat) : Val
  /-- `public_bytes(PEM, SubjectPublicKeyInfo)` of an X25519 public key. -/
  | pem (k : Nat) : Val
  deriving DecidableEq, Repr

/-- A list of `Val` (elements of a Python `list`). -/
inductive ValList where
  /-- Empty list. -/
  | nil : ValList
  /-- Cons cell. -/
  | cons (hd : Val) (tl : ValList) : ValList
  deriving DecidableEq, Repr

/-- The string-keyed entries of a Python `dict`, in insertion order. -/
inductive ValFields where
  /-- Empty dict. -/
  | nil : ValFields
  /-- One `key: value` entry followed by the rest. -/
  | cons (key : String) (val : Val) (tl : ValFields) : ValFields
  deriving DecidableEq, Repr

end

/-- `base64.b64encode(v).decode("ascii")`. -/
def b64encode (v : Val) : Val := .b64 v

/-- `base64.b64decode`: inverts `b64encode`, fails on anything else. -/
def b64decode : Val → Option Val
  | .b64 v => some v
  | _ => none

/-- `json.dumps(v, ensure_ascii=False).encode("utf-8")`. -/
def jsonDumps (v : Val) : Val := .jsonText v

/-- `json.loads`: inverts `jsonDumps`, fails on anything else. -/
def jsonLoads : Val → Option Val
  | .jsonText v => some v
  | _ => none

/-- `AESGCM(key).encrypt(nonce, pt, None)`. -/
def aesgcmEncrypt (key nonce pt : Val) : Val := .enc key nonce pt

/-- `AESGCM(key).decrypt(nonce, ct, None)`: succeeds exactly when `ct`
was produced under the same key and nonce (ideal AEAD: a tag forged
under a different key never verifies; `InvalidTag` is modelled as
`none`). -/
def aesgcmDecrypt (key nonce ct : Val) : Option Val :=
  match ct with
  | .enc k n pt => if k = key ∧ n = nonce then some pt else none
  | _ => none

/-- `aes_key_wrap(kek, dek)` (RFC 3394, deterministic). -/
def aesKeyWrap (kek dek : Val) : Val := .wrap kek dek

/-- `aes_key_unwrap(kek, wrapped)`: succeeds exactly when `wrapped` was
produced under the same key-encryption key (the wrap primitive is
authenticated; `InvalidUnwrap` is modelled as `none`). -/
def aesKeyUnwrap (kek wrapped : Val) : Option Val :=
  match wrapped with
  | .wrap k d => if k = kek then some d else none
  | _ => none

mutual

/-- Whether a `Val` is a JSON-representable Python value (built from
only the constructors `json.dumps` accepts). -/
def isJson : Val → Bool
  | .vnull => true
  | .vbool _ => true
  | .vint _ => true
  | .vstr _ => true
  | .varr xs => isJsonList xs
  | .vobj kvs => isJsonFields kvs
  | _ => false

/-- All elements of a JSON array are JSON-representable. -/
def isJsonList : ValList → Bool
  | .nil => true
  | .cons v t => isJson v && isJsonList t

/-- All values of a JSON object are JSON-representable. -/
def isJsonFields : ValFields → Bool
  | .nil => true
  | .cons _ v t => isJson v && isJsonFields t

end

/-- Whether a `Val` is a JSON-representable Python `dict`. -/
def isJsonObj (v : Val) : Bool :=
  match v with
  | .vobj _ => isJson v
  | _ => false

/-- `d[k]` on a Python dict: the value bound to key `k`, if present. -/
def ValFields.lookup : ValFields → String → Option Val
  | .nil, _ => none
  | .cons key v t, k => if key = k then some v else t.lookup k

/-! ## X25519 (`cryptography.hazmat.primitives.asymmetric.x25519`)

A private key is identified by its scalar; the corresponding public key
is the curve point determined by that scalar (symbolically: the same
number, since scalar-to-point is injective on X25519).  The shared
secret of an exchange is the unordered pair of the two scalars, stored
sorted, which gives the Diffie-Hellman identity
`a.exchange(pub_b) = b.exchange(pub_a)` by commutativity of
`min`/`max`. -/

/-- An `X25519PrivateKey`, identified by its secret scalar. -/
structure X25519PrivateKey where
  /-- The secret scalar. -/
  scalar : Nat
  deriving DecidableEq, Repr

/-- An `X25519PublicKey`, identified by the curve point (symbolically,
the generating scalar, since scalar-to-point is injective). -/
structure X25519PublicKey where
  /-- The curve point, identified by its generating scalar. -/
  point : Nat
  deriving DecidableEq, Repr

/-- `X25519PrivateKey.public_key()`. -/
def X25519PrivateKey.public_key (k : X25519PrivateKey) : X25519PublicKey :=
  ⟨k.scalar⟩

/-- `X25519PrivateKey.exchange(peer)`: the raw shared secret. -/
def X25519PrivateKey.exchange (k : X25519PrivateKey) (peer : X25519PublicKey) : Val :=
  .dh (min k.scalar peer.point) (max k.scalar peer.point)

/-- `public_bytes(Encoding.Raw, PublicFormat.Raw)`. -/
def X25519PublicKey.public_bytes_raw (p : X25519PublicKey) : Val :=
  .pubRaw p.point

/-- `X25519PublicKey.from_public_bytes(data)`: succeeds on a raw public
key encoding, fails (raises `ValueError`) on anything else. -/
def X25519PublicKey.from_public_bytes : Val → Option X25519PublicKey
  | .pubRaw n => some ⟨n⟩
  | _ => none

/-- `private_bytes(Encoding.Raw, PrivateFormat.Raw, NoEncryption())`. -/
def X25519PrivateKey.private_bytes_raw (k : X25519PrivateKey) : Val :=
  .privRaw k.scalar

/-- `X25519PrivateKey.from_private_bytes(data)`: succeeds on a raw
private key encoding, fails on anything else. -/
def X25519PrivateKey.from_private_bytes : Val → Option X25519PrivateKey
  | .privRaw n => some ⟨n⟩
  | _ => none

/-! ## `src/crypto/vault.py` — `EncryptedVault` and `VaultEncryptor` -/

/-- The `EncryptedVault` dataclass: an encrypted transit/rest envelope. -/
structure EncryptedVault where
  /-- AES-GCM ciphertext of the serialized mapping. -/
  ciphertext : Val
  /-- The 96-bit AES-GCM nonce. -/
  nonce : Val
  /-- The DEK wrapped with AES-KW under the HKDF-derived wrapping key. -/
  wrapped_dek : Val
  /-- Raw bytes of the ephemeral X25519 public key. -/
  ephemeral_public_key : Val
  /-- Cleartext metadata dict. -/
  metadata : Val
  deriving DecidableEq, Repr

/-- The JSON-serializable dictionary produced by `EncryptedVault.to_dict`.
`metadata = none` models a dict that lacks the `"metadata"` key
(`from_dict` reads it with `data.get("metadata", {})`); the four
required keys are always read with `data[...]`. -/
structure VaultDict where
  /-- The `"ciphertext"` entry (base64 text). -/
  ciphertext : Val
  /-- The `"nonce"` entry (base64 text). -/
  nonce : Val
  /-- The `"wrapped_dek"` entry (base64 text). -/
  wrapped_dek : Val
  /-- The `"ephemeral_public_key"` entry (base64 text). -/
  ephemeral_public_key : Val
  /-- The `"metadata"` entry, or `none` when the key is absent. -/
  metadata : Option Val
  deriving DecidableEq, Repr

/-- `EncryptedVault.to_dict`: base64-encode every binary field, pass
the metadata dict through in cleartext. -/
def EncryptedVault.to_dict (v : EncryptedVault) : VaultDict :=
  { ciphertext := b64encode v.ciphertext
    nonce := b64encode v.nonce
    wrapped_dek := b64encode v.wrapped_dek
    ephemeral_public_key := b64encode v.ephemeral_public_key
    metadata := some v.metadata }

/-- `EncryptedVault.from_dict`: base64-decode every binary field;
a missing `"metadata"` key defaults to the empty dict. -/
def EncryptedVault.from_dict (d : VaultDict) : Option EncryptedVault := do
  let ct ← b64decode d.ciphertext
  let n ← b64decode d.nonce
  let wd ← b64decode d.wrapped_dek
  let ek ← b64decode d.ephemeral_public_key
  pure { ciphertext := ct, nonce := n, wrapped_dek := wd,
         ephemeral_public_key := ek,
         metadata := d.metadata.getD (.vobj .nil) }

namespace VaultEncryptor

/-- `VaultEncryptor.HKDF_INFO = b"cerebro-vault-dek-wrap"`. -/
def HKDF_INFO : String := "cerebro-vault-dek-wrap"

/-- The random draws consumed by one `encrypt_mapping` call:
`os.urandom(32)` for the DEK, `os.urandom(12)` for the nonce, and
`X25519PrivateKey.generate()` for the ephemeral keypair. -/
structure EncRand where
  /-- Bytes of the fresh DEK. -/
  dek : List Nat
  /-- Bytes of the fresh AES-GCM nonce. -/
  nonce : List Nat
  /-- Scalar of the fresh ephemeral private key. -/
  ephScalar : Nat
  deriving DecidableEq, Repr

/-- `VaultEncryptor.encrypt_mapping(mapping, recipient_public_key,
metadata)`, with the randomness passed explicitly.  Mirrors the source
step by step: fresh DEK; `json.dumps` of the mapping; AES-GCM under a
fresh nonce; fresh ephemeral X25519 keypair; exchange with the
recipient key; HKDF-SHA256 with `HKDF_INFO`; AES-KW wrap of the DEK;
raw ephemeral public key bytes; `metadata or {}`. -/
def encrypt_mapping (mapping : Val) (recipient_public_key : X25519PublicKey)
    (metadata : Option Val) (r : EncRand) : EncryptedVault :=
  let dek : Val := .bytes r.dek
  let plaintext := jsonDumps mapping
  let nonce : Val := .bytes r.nonce
  let ciphertext := aesgcmEncrypt dek nonce plaintext
  let ephemeral_private : X25519PrivateKey := ⟨r.ephScalar⟩
  let ephemeral_public := ephemeral_private.public_key
  let shared_secret := ephemeral_private.exchange recipient_public_key
  let wrapping_key : Val := .hkdfSha256 shared_secret HKDF_INFO
  let wrapped_dek := aesKeyWrap wrapping_key dek
  { ciphertext := ciphertext
    nonce := nonce
    wrapped_dek := wrapped_dek
    ephemeral_public_key := ephemeral_public.public_bytes_raw
    metadata := metadata.getD (.vobj .nil) }

/-- The errors `decrypt_mapping` can raise: `InvalidUnwrap` /
`InvalidTag` from the AEAD layer (the spec's `IntegrityFailure`), a
`ValueError` from `from_public_bytes`, or a JSON parse error. -/
inductive VaultError where
  /-- `InvalidUnwrap` or `InvalidTag`: authenticated unwrap/decryption
  failed. -/
  | integrityFailure : VaultError
  /-- `from_public_bytes` rejected the stored ephemeral key bytes. -/
  | malformedEphemeralKey : VaultError
  /-- `json.loads` failed on the decrypted plaintext. -/
  | jsonError : VaultError
  deriving DecidableEq, Repr

/-- `VaultEncryptor.decrypt_mapping(vault, private_key)`.  Mirrors the
source step by step: reconstruct the ephemeral public key; exchange;
HKDF-SHA256 with `HKDF_INFO`; AES-KW unwrap of the DEK; AES-GCM
decryption; `json.loads`.  Nothing is caught, so every failure is a
raised error. -/
def decrypt_mapping (vault : EncryptedVault) (private_key : X25519PrivateKey) :
    Except VaultError Val :=
  match X25519PublicKey.from_public_bytes vault.ephemeral_public_key with
  | none => .error .malformedEphemeralKey
  | some ephemeral_public =>
    let shared_secret := private_key.exchange ephemeral_public
    let wrapping_key : Val := .hkdfSha256 shared_secret HKDF_INFO
    match aesKeyUnwrap wrapping_key vault.wrapped_dek with
    | none => .error .integrityFailure
    | some dek =>
      match aesgcmDecrypt dek vault.nonce vault.ciphertext with
      | none => .error .integrityFailure
      | some plaintext =>
        match jsonLoads plaintext with
        | none => .error .jsonError
        | some mapping => .ok mapping

end VaultEncryptor

/-! ## `src/crypto/passphrase.py` — `PassphraseDeriver` -/

namespace PassphraseDeriver

/-- `PassphraseDeriver.derive_key(passphrase, salt)`.  The salt is
passed explicitly (the caller supplies the fresh `os.urandom(16)` draw
when the Python code passes `salt=None`).  Returns `(derived_key,
salt)` exactly as the source does; the Argon2id call itself is the
symbolic constructor with the fixed parameters of the source recorded
in its doc string. -/
def derive_key (passphrase : String) (salt : Val) : Val × Val :=
  (.argon2id passphrase salt, salt)

end PassphraseDeriver

/-! ## `src/crypto/key_manager.py` — `KeyManager`

The persistent files under `storage_dir` and the in-memory unlocked key
are the state.  `private_key.enc` holds a JSON record
`{salt, nonce, ciphertext, algorithm, kdf}`; it is modelled already
parsed and base64-decoded (`KeystoreRecord`), which covers every record
of valid shape including ones with corrupted ciphertext. -/

/-- The JSON record stored in `private_key.enc` (fields after base64
decoding). -/
structure KeystoreRecord where
  /-- The Argon2id salt. -/
  salt : Val
  /-- The AES-GCM nonce. -/
  nonce : Val
  /-- AES-GCM ciphertext of the raw private key bytes. -/
  ciphertext : Val
  /-- The `"algorithm"` tag. -/
  algorithm : String
  /-- The `"kdf"` tag. -/
  kdf : String
  deriving DecidableEq, Repr

/-- The state of a `KeyManager`: its two persistent files and the
in-memory unlocked private key (`None` when locked). -/
structure KMState where
  /-- Content of `public_key.pem`, or `none` when the file is absent. -/
  public_key_file : Option Val
  /-- Content of `private_key.enc`, or `none` when the file is absent. -/
  private_key_file : Option KeystoreRecord
  /-- `self._unlocked_private_key`. -/
  unlocked_private_key : Option X25519PrivateKey
  deriving DecidableEq, Repr

namespace KeyManager

/-- `KeyManager.has_keys`: both key files exist. -/
def has_keys (s : KMState) : Bool :=
  s.public_key_file.isSome && s.private_key_file.isSome

/-- `KeyManager.is_unlocked`. -/
def is_unlocked (s : KMState) : Bool :=
  s.unlocked_private_key.isSome

/-- The random draws consumed by one `generate_keypair` call:
`X25519PrivateKey.generate()`, the fresh Argon2id salt
(`os.urandom(16)` inside `derive_key`), and the fresh AES-GCM nonce
(`os.urandom(12)`). -/
structure GenRand where
  /-- Scalar of the fresh private key. -/
  scalar : Nat
  /-- Bytes of the fresh salt. -/
  salt : List Nat
  /-- Bytes of the fresh nonce. -/
  nonce : List Nat
  deriving DecidableEq, Repr

/-- The keystore record `generate_keypair` persists for randomness `r`
and passphrase `p`. -/
def generatedRecord (p : String) (r : GenRand) : KeystoreRecord :=
  { salt := .bytes r.salt
    nonce := .bytes r.nonce
    ciphertext :=
      aesgcmEncrypt (.argon2id p (.bytes r.salt)) (.bytes r.nonce)
        (X25519PrivateKey.private_bytes_raw ⟨r.scalar⟩)
    algorithm := "X25519"
    kdf := "argon2id" }

/-- `KeyManager.generate_keypair(passphrase)`, randomness explicit.
Mirrors the source step by step: generate the keypair; serialize the
public key (PEM and raw) and the private key (raw); derive an
encryption key from the passphrase with a fresh salt; AES-GCM-encrypt
the raw private key under a fresh nonce; write both files (overwriting
whatever was there — there is no `has_keys` guard); keep the new key
unlocked in memory; return `(public_key_pem, public_key_raw)`. -/
def generate_keypair (s : KMState) (passphrase : String) (r : GenRand) :
    KMState × (Val × Val) :=
  let private_key : X25519PrivateKey := ⟨r.scalar⟩
  let public_key := private_key.public_key
  let public_key_pem : Val := .pem public_key.point
  let public_key_raw := public_key.public_bytes_raw
  let record := generatedRecord passphrase r
  ({ s with
      public_key_file := some public_key_pem
      private_key_file := some record
      unlocked_private_key := some private_key },
   (public_key_pem, public_key_raw))

/-- `KeyManager.unlock(passphrase)`.  Raises `ValueError` when no keys
are persisted; otherwise re-derives the key from the stored salt and
attempts authenticated decryption inside a `try` that catches every
exception and returns `False`, leaving the state untouched (the
in-memory key is only assigned after a successful decryption). -/
def unlock (s : KMState) (passphrase : String) :
    Except String (Bool × KMState) :=
  match s.public_key_file, s.private_key_file with
  | some _, some record =>
    let derived_key := (PassphraseDeriver.derive_key passphrase record.salt).1
    match aesgcmDecrypt derived_key record.nonce record.ciphertext with
    | some private_key_raw =>
      match X25519PrivateKey.from_private_bytes private_key_raw with
      | some private_key =>
        .ok (true, { s with unlocked_private_key := some private_key })
      | none => .ok (false, s)
    | none => .ok (false, s)
  | _, _ => .error "No keys found. Generate keys first."

/-- `KeyManager.lock()`. -/
def lock (s : KMState) : KMState :=
  { s with unlocked_private_key := none }

end KeyManager

/-! ## `src/crypto/vault.py` — `LocalVaultCache`

`save` is embedded as the list of file-system operations it performs
(plus the resulting cache-file content), so that the claimed
write-temp-then-rename pattern is observable; `load` is a total
function of the cache-file content (`none` = file absent). -/

/-- One observable file-system operation. -/
inductive FsOp where
  /-- `path.write_text(content)` — a direct, non-atomic write. -/
  | writeText (path : String) (content : Val) : FsOp
  /-- `tmp.rename(path)` / `os.replace(tmp, path)` — an atomic rename. -/
  | rename (src dst : String) : FsOp
  deriving DecidableEq, Repr

namespace LocalVaultCache

/-- The JSON text `save` writes: the dict
`{"nonce": b64(nonce), "ciphertext": b64(ct)}` serialized with
`json.dumps`. -/
def cacheFileContent (nonce ciphertext : Val) : Val :=
  jsonDumps (.vobj (.cons "nonce" (b64encode nonce)
    (.cons "ciphertext" (b64encode ciphertext) .nil)))

/-- `LocalVaultCache.save(mapping, encryption_key)`, randomness (the
fresh nonce) explicit.  Returns the trace of file-system operations
performed and the content of the cache file afterwards (its previous
content `prior` is irrelevant to the result: it is overwritten). -/
def save (cache_path : String) (mapping : Val) (encryption_key : Val)
    (rnonce : List Nat) (prior : Option Val) : List FsOp × Option Val :=
  let plaintext := jsonDumps mapping
  let nonce : Val := .bytes rnonce
  let ciphertext := aesgcmEncrypt encryption_key nonce plaintext
  let content := cacheFileContent nonce ciphertext
  let _ := prior
  ([FsOp.writeText cache_path content], some content)

/-- `LocalVaultCache.load(encryption_key)` as a function of the cache
file's content (`none` = the file does not exist).  Mirrors the source:
missing file returns `None`; everything else runs inside a `try` whose
`except Exception` returns `None` — JSON parse failure, missing dict
keys, base64 failure, and authenticated-decryption failure all end
there.  The function is total: no failure escapes. -/
def load (file : Option Val) (encryption_key : Val) : Option Val :=
  match file with
  | none => none
  | some text =>
    match jsonLoads text with
    | none => none
    | some cache_data =>
      match cache_data with
      | .vobj kvs =>
        match kvs.lookup "nonce", kvs.lookup "ciphertext" with
        | some nonce_b64, some ct_b64 =>
          match b64decode nonce_b64, b64decode ct_b64 with
          | some nonce, some ciphertext =>
            match aesgcmDecrypt encryption_key nonce ciphertext with
            | some plaintext => jsonLoads plaintext
            | none => none
          | _, _ => none
        | _, _ => none
      | _ => none

end LocalVaultCache

/-! ## `src/crypto/hoeilaart_vault.py` — `HoeilaartVault`

The legacy blob layout `salt(16) ‖ nonce(12) ‖ ciphertext` is modelled
as the structured triple the slicing `[:16]`, `[16:28]`, `[28:]`
recovers. -/

/-- A blob of layout `salt(16) ‖ nonce(12) ‖ ciphertext`. -/
structure LegacyBlob where
  /-- Bytes 0–15: the PBKDF2 salt. -/
  salt : Val
  /-- Bytes 16–27: the AES-GCM nonce. -/
  nonce : Val
  /-- Bytes 28…: the AES-GCM ciphertext. -/
  ciphertext : Val
  deriving DecidableEq, Repr

/-- The state of a `HoeilaartVault`: its two persistent files and the
in-memory decrypted mapping cache. -/
structure HVState where
  /-- Content of the mapping file, or `none` when absent. -/
  mapping_file : Option LegacyBlob
  /-- Content of the setup-flag file, or `none` when absent. -/
  setup_flag_file : Option Val
  /-- `self._cached_mappings`. -/
  cached_mappings : Option Val
  deriving DecidableEq, Repr

namespace HoeilaartVault

/-- `HoeilaartVault._derive_key(passphrase, salt)` with the salt
explicit: `hashlib.pbkdf2_hmac('sha256', passphrase, salt, 100000,
dklen=32)`. -/
def derive_key (passphrase : String) (salt : Val) : Val × Val :=
  (.pbkdf2Sha256 passphrase salt 100000, salt)

/-- `HoeilaartVault.decrypt_original_file(encrypted_data, password)`:
split the layout, derive the key with PBKDF2 at 100000 iterations,
authenticated-decrypt, parse JSON.  Every exception inside the `try` is
re-raised as `ValueError("Decryption failed: ...")`, modelled as
`Except.error`. -/
def decrypt_original_file (encrypted_data : LegacyBlob) (password : String) :
    Except String Val :=
  let key := (derive_key password encrypted_data.salt).1
  match aesgcmDecrypt key encrypted_data.nonce encrypted_data.ciphertext with
  | none => .error "Decryption failed: InvalidTag. Check if the password is correct."
  | some plaintext =>
    match jsonLoads plaintext with
    | none => .error "Decryption failed: JSONDecodeError. Check if the password is correct."
    | some records => .ok records

/-- `HoeilaartVault.unlock(passphrase)`.  Returns `False` untouched
when the mapping file is absent; otherwise splits the blob, re-derives
the key and decrypts inside a `try` whose `except` sets
`self._cached_mappings = None` **before** returning `False` — so a
failed decryption clears any previously cached mapping. -/
def unlock (s : HVState) (passphrase : String) : Bool × HVState :=
  match s.mapping_file with
  | none => (false, s)
  | some blob =>
    let key := (derive_key passphrase blob.salt).1
    match aesgcmDecrypt key blob.nonce blob.ciphertext with
    | none => (false, { s with cached_mappings := none })
    | some plaintext =>
      match jsonLoads plaintext with
      | none => (false, { s with cached_mappings := none })
      | some mapping => (true, { s with cached_mappings := some mapping })

/-- `HoeilaartVault.is_unlocked`. -/
def is_unlocked (s : HVState) : Bool :=
  s.cached_mappings.isSome

/-- `HoeilaartVault.lock()`. -/
def lock (s : HVState) : HVState :=
  { s with cached_mappings := none }

end HoeilaartVault

/-! ## Concrete sample values (used to instantiate proved claims) -/

/-- Sample mapping used to instantiate hypotheses of proved claims. -/
def sampleMapping : Val :=
  .vobj (.cons "PSE-0001"
    (.vobj (.cons "naam" (.vstr "Peeters") (.cons "voornaam" (.vstr "An") .nil)))
    .nil)

/-- Sample metadata dict used to instantiate hypotheses of proved
claims. -/
def sampleMetadata : Val :=
  .vobj (.cons "uploaded_at" (.vstr "2025-01-01T00:00:00") .nil)

/-- Randomness of a sample earlier `generate_keypair` call. -/
def sampleGenRand : KeyManager.GenRand := ⟨1, [10], [11]⟩

/-- A `KeyManager` state in which a keypair generated with passphrase
`"old-pass"` is persisted and the manager is locked. -/
def sampleKMStateWithKeys : KMState :=
  { public_key_file := some (.pem 1)
    private_key_file := some (KeyManager.generatedRecord "old-pass" sampleGenRand)
    unlocked_private_key := none }

/-- Sample mapping stored in the legacy vault. -/
def sampleLegacyMapping : Val :=
  .vobj (.cons "PSE-0002" (.vobj (.cons "insz" (.vstr "850101-123-45") .nil)) .nil)

/-- A legacy store written under passphrase `"correct-pass"`. -/
def sampleLegacyStore : LegacyBlob :=
  { salt := .bytes [20]
    nonce := .bytes [21]
    ciphertext := aesgcmEncrypt (.pbkdf2Sha256 "correct-pass" (.bytes [20]) 100000)
      (.bytes [21]) (jsonDumps sampleLegacyMapping) }

/-- A `HoeilaartVault` state that is currently unlocked (mapping cached
in memory) with its store persisted. -/
def sampleUnlockedHV : HVState :=
  { mapping_file := some sampleLegacyStore
    setup_flag_file := some (.vobj .nil)
    cached_mappings := some sampleLegacyMapping }

/-- The field names of a legacy record, in storage order. -/
def expectedLegacyKeys : List String :=
  ["pseudoniem", "origineel_id", "naam", "voornaam", "email"]

/-- The key list of a dict. -/
def ValFields.keys : ValFields → List String
  | .nil => []
  | .cons k _ t => k :: keys t

/-- Whether a record is a dict whose key set is exactly
`expectedLegacyKeys`. -/
def hasExactLegacyFields (v : Val) : Bool :=
  match v with
  | .vobj kvs =>
    expectedLegacyKeys.all kvs.keys.contains &&
      kvs.keys.all expectedLegacyKeys.contains
  | _ => false

/-- Whether every record in a list has exactly the expected legacy
field set. -/
def recordsHaveExactFields : ValList → Bool
  | .nil => true
  | .cons v t => hasExactLegacyFields v && recordsHaveExactFields t

/-- A legacy input blob of the layout the external pseudonymisation
tool produces (`salt(16) ‖ nonce(12) ‖ ciphertext`, PBKDF2-SHA256 at
100000 iterations, AES-256-GCM over the JSON record list) — the
universe of inputs claim C9 quantifies over. -/
def legacyToolBlob (records : ValList) (salt nonce : List Nat)
    (password : String) : LegacyBlob :=
  { salt := .bytes salt
    nonce := .bytes nonce
    ciphertext := aesgcmEncrypt (.pbkdf2Sha256 password (.bytes salt) 100000)
      (.bytes nonce) (jsonDumps (.varr records)) }

/-- A concrete well-formed legacy record list. -/
def sampleLegacyRecords : ValList :=
  .cons (.vobj (.cons "pseudoniem" (.vstr "PSE-0001")
    (.cons "origineel_id" (.vstr "850101-123-45")
    (.cons "naam" (.vstr "Peeters")
    (.cons "voornaam" (.vstr "An")
    (.cons "email" (.vstr "an@example.com") .nil)))))) .nil

/-! ## Shared lemmas -/

/-- The Diffie-Hellman identity of the symbolic exchange: both orders
of the two scalars give the same shared secret. -/
theorem exchange_comm (a b : Nat) :
    X25519PrivateKey.exchange ⟨a⟩ ⟨b⟩ = X25519PrivateKey.exchange ⟨b⟩ ⟨a⟩ := by
  simp [X25519PrivateKey.exchange, Nat.min_comm, Nat.max_comm]

/-- A shared secret determines the non-ephemeral scalar: exchanges with
the same ephemeral scalar agree only for the same peer scalar. -/
theorem exchange_inj {a b e : Nat}
    (h : X25519PrivateKey.exchange ⟨a⟩ ⟨e⟩ = X25519PrivateKey.exchange ⟨b⟩ ⟨e⟩) :
    a = b := by
  simp only [X25519PrivateKey.exchange, Val.dh.injEq] at h
  omega

/-! ## Claims -/

/-- **C1.** For every mapping `M` (a JSON-representable dict), every
X25519 keypair `(priv, pub)` where `pub` is `priv`'s public key, and
every metadata dict:
`VaultEncryptor.decrypt_mapping (VaultEncryptor.encrypt_mapping M pub
metadata) priv` returns `M` unchanged. -/
theorem encrypt_then_decrypt_returns_mapping (M : Val) (hM : isJsonObj M = true)
    (priv : X25519PrivateKey) (pub : X25519PublicKey)
    (hpub : pub = priv.public_key)
    (metadata : Option Val) (r : VaultEncryptor.EncRand) :
    VaultEncryptor.decrypt_mapping
      (VaultEncryptor.encrypt_mapping M pub metadata r) priv = .ok M := by
  subst hpub
  simp [VaultEncryptor.encrypt_mapping, VaultEncryptor.decrypt_mapping,
    X25519PublicKey.from_public_bytes, X25519PublicKey.public_bytes_raw,
    X25519PrivateKey.public_key, X25519PrivateKey.exchange,
    aesKeyWrap, aesKeyUnwrap, aesgcmEncrypt, aesgcmDecrypt,
    jsonDumps, jsonLoads, Nat.min_comm, Nat.max_comm]

/-- Witness for C1 at a concrete mapping, keypair, metadata and
randomness. -/
theorem encrypt_then_decrypt_returns_mapping_witness :
    isJsonObj sampleMapping = true ∧
    VaultEncryptor.decrypt_mapping
      (VaultEncryptor.encrypt_mapping sampleMapping
        (X25519PrivateKey.public_key ⟨5⟩) (some sampleMetadata)
        ⟨[1, 2], [3, 4], 7⟩) ⟨5⟩ = .ok sampleMapping :=
  ⟨by rfl,
   encrypt_then_decrypt_returns_mapping sampleMapping (by rfl) ⟨5⟩ _ rfl
     (some sampleMetadata) ⟨[1, 2], [3, 4], 7⟩⟩

/-- **C2.** For every vault produced by `encrypt_mapping` for recipient
public key `pub`, calling `decrypt_mapping` with a private key whose
public key is not `pub` fails with `IntegrityFailure` (a raised error,
never a silent empty result): the HKDF-derived wrapping key differs, so
`aes_key_unwrap` rejects the wrapped DEK. -/
theorem decrypt_with_wrong_key_integrity_failure (M : Val)
    (recipient : X25519PublicKey) (metadata : Option Val)
    (r : VaultEncryptor.EncRand) (priv : X25519PrivateKey)
    (h : priv.public_key ≠ recipient) :
    VaultEncryptor.decrypt_mapping
      (VaultEncryptor.encrypt_mapping M recipient metadata r) priv =
      .error .integrityFailure := by
  obtain ⟨rp⟩ := recipient
  obtain ⟨ps⟩ := priv
  have hne : ps ≠ rp := fun hc => h (by simp [X25519PrivateKey.public_key, hc])
  have hkne : Val.hkdfSha256 (X25519PrivateKey.exchange ⟨r.ephScalar⟩ ⟨rp⟩)
        VaultEncryptor.HKDF_INFO ≠
      Val.hkdfSha256 (X25519PrivateKey.exchange ⟨ps⟩ ⟨r.ephScalar⟩)
        VaultEncryptor.HKDF_INFO := by
    simp only [X25519PrivateKey.exchange, ne_eq, Val.hkdfSha256.injEq, Val.dh.injEq]
    omega
  simp [VaultEncryptor.encrypt_mapping, VaultEncryptor.decrypt_mapping,
    X25519PublicKey.from_public_bytes, X25519PublicKey.public_bytes_raw,
    X25519PrivateKey.public_key, aesKeyWrap, aesKeyUnwrap, aesgcmEncrypt, hkne]

/-- Witness for C2 at a concrete mapping, recipient, wrong private key
and randomness. -/
theorem decrypt_with_wrong_key_integrity_failure_witness :
    (X25519PrivateKey.public_key ⟨6⟩ ≠ (⟨5⟩ : X25519PublicKey)) ∧
    VaultEncryptor.decrypt_mapping
      (VaultEncryptor.encrypt_mapping sampleMapping ⟨5⟩ none
        ⟨[1, 2], [3, 4], 7⟩) ⟨6⟩ = .error .integrityFailure :=
  ⟨by decide,
   decrypt_with_wrong_key_integrity_failure sampleMapping ⟨5⟩ none
     ⟨[1, 2], [3, 4], 7⟩ ⟨6⟩ (by decide)⟩

/-- **C8.** Two `encrypt_mapping` calls on identical `(M, pub,
metadata)` with distinct fresh randomness (distinct DEK, nonce and
ephemeral scalar draws) produce pairwise different ciphertext, nonce,
wrapped DEK and ephemeral public key. -/
theorem encrypt_mapping_outputs_never_repeat (M : Val)
    (recipient : X25519PublicKey) (metadata : Option Val)
    (r₁ r₂ : VaultEncryptor.EncRand)
    (hdek : r₁.dek ≠ r₂.dek) (hnonce : r₁.nonce ≠ r₂.nonce)
    (heph : r₁.ephScalar ≠ r₂.ephScalar) :
    (VaultEncryptor.encrypt_mapping M recipient metadata r₁).ciphertext ≠
      (VaultEncryptor.encrypt_mapping M recipient metadata r₂).ciphertext ∧
    (VaultEncryptor.encrypt_mapping M recipient metadata r₁).nonce ≠
      (VaultEncryptor.encrypt_mapping M recipient metadata r₂).nonce ∧
    (VaultEncryptor.encrypt_mapping M recipient metadata r₁).wrapped_dek ≠
      (VaultEncryptor.encrypt_mapping M recipient metadata r₂).wrapped_dek ∧
    (VaultEncryptor.encrypt_mapping M recipient metadata r₁).ephemeral_public_key ≠
      (VaultEncryptor.encrypt_mapping M recipient metadata r₂).ephemeral_public_key := by
  simp [VaultEncryptor.encrypt_mapping, aesgcmEncrypt, aesKeyWrap,
    X25519PublicKey.public_bytes_raw, X25519PrivateKey.public_key,
    jsonDumps, hdek, hnonce, heph]

/-- Witness for C8 at a concrete mapping, recipient and two concrete
distinct randomness draws. -/
theorem encrypt_mapping_outputs_never_repeat_witness :
    (VaultEncryptor.encrypt_mapping sampleMapping ⟨5⟩ none
        ⟨[1], [2], 3⟩).ciphertext ≠
      (VaultEncryptor.encrypt_mapping sampleMapping ⟨5⟩ none
        ⟨[4], [6], 8⟩).ciphertext ∧
    (VaultEncryptor.encrypt_mapping sampleMapping ⟨5⟩ none
        ⟨[1], [2], 3⟩).nonce ≠
      (VaultEncryptor.encrypt_mapping sampleMapping ⟨5⟩ none
        ⟨[4], [6], 8⟩).nonce ∧
    (VaultEncryptor.encrypt_mapping sampleMapping ⟨5⟩ none
        ⟨[1], [2], 3⟩).wrapped_dek ≠
      (VaultEncryptor.encrypt_mapping sampleMapping ⟨5⟩ none
        ⟨[4], [6], 8⟩).wrapped_dek ∧
    (VaultEncryptor.encrypt_mapping sampleMapping ⟨5⟩ none
        ⟨[1], [2], 3⟩).ephemeral_public_key ≠
      (VaultEncryptor.encrypt_mapping sampleMapping ⟨5⟩ none
        ⟨[4], [6], 8⟩).ephemeral_public_key :=
  encrypt_mapping_outputs_never_repeat sampleMapping ⟨5⟩ none
    ⟨[1], [2], 3⟩ ⟨[4], [6], 8⟩ (by decide) (by decide) (by decide)

/-- **C10.** `EncryptedVault.from_dict (v.to_dict) = v` for every
`EncryptedVault` whose metadata is JSON-representable: the wire format
round-trips every field without loss; and `from_dict` of a dict lacking
the `"metadata"` key succeeds with an empty metadata dict. -/
theorem vault_wire_format_roundtrip (v : EncryptedVault)
    (h : isJson v.metadata = true) :
    EncryptedVault.from_dict v.to_dict = some v ∧
    ∀ a b c e : Val,
      EncryptedVault.from_dict
        ⟨b64encode a, b64encode b, b64encode c, b64encode e, none⟩ =
        some ⟨a, b, c, e, .vobj .nil⟩ := by
  constructor
  · simp [EncryptedVault.from_dict, EncryptedVault.to_dict, b64encode, b64decode]
  · intro a b c e
    simp [EncryptedVault.from_dict, b64encode, b64decode]

/-- **C3 counterexample.** The claim says `generate_keypair` fails with
`AlreadyExists` when a keypair is already persisted, leaving the
keystore unchanged.  At this concrete state `has_keys` is true, yet
`generate_keypair` succeeds, replaces the persisted keystore record and
unlocks the fresh key — there is no `AlreadyExists` path in
`KeyManager.generate_keypair` (the guard lives in the HTTP route in
`src/main.py`, not in `KeyManager`). -/
theorem generate_keypair_overwrites_counterexample :
    KeyManager.has_keys sampleKMStateWithKeys = true ∧
    (KeyManager.generate_keypair sampleKMStateWithKeys "new-pass"
        ⟨2, [12], [13]⟩).1.private_key_file ≠
      sampleKMStateWithKeys.private_key_file ∧
    (KeyManager.generate_keypair sampleKMStateWithKeys "new-pass"
        ⟨2, [12], [13]⟩).1.unlocked_private_key = some ⟨2⟩ := by
  refine ⟨rfl, ?_, rfl⟩
  decide

/-- **C3 amended.** For every state (whether or not a keypair is
already persisted), every passphrase and every randomness draw,
`KeyManager.generate_keypair` succeeds: it generates a fresh keypair,
persists the new public key file and keystore record (overwriting any
existing ones), keeps the new private key unlocked in memory, and
returns the PEM and raw public key encodings.  It never fails with
`AlreadyExists`. -/
theorem generate_keypair_always_generates (s : KMState) (p : String)
    (r : KeyManager.GenRand) :
    KeyManager.generate_keypair s p r =
      ({ public_key_file := some (.pem r.scalar)
         private_key_file := some (KeyManager.generatedRecord p r)
         unlocked_private_key := some ⟨r.scalar⟩ },
       (.pem r.scalar, .pubRaw r.scalar)) := rfl

/-- **C4.** For every persisted keystore and every passphrase `p` whose
derived key fails authenticated decryption — whether because the
keystore was generated under a different passphrase or because its
ciphertext was corrupted — `KeyManager.unlock` returns `ok (false, s)`:
it returns `False`, never raises, leaves the state unchanged, and
returns the identical value in the wrong-passphrase and corrupted-data
cases. -/
theorem unlock_wrong_passphrase_returns_false (s : KMState)
    (record : KeystoreRecord) (hpub : s.public_key_file.isSome = true)
    (hpriv : s.private_key_file = some record) (p : String) :
    (aesgcmDecrypt (.argon2id p record.salt) record.nonce record.ciphertext = none →
      KeyManager.unlock s p = .ok (false, s)) ∧
    (∀ (q : String) (r : KeyManager.GenRand), p ≠ q →
      record = KeyManager.generatedRecord q r →
      KeyManager.unlock s p = .ok (false, s)) := by
  obtain ⟨pk, hpk⟩ := Option.isSome_iff_exists.mp hpub
  constructor
  · intro hfail
    simp [KeyManager.unlock, hpk, hpriv, PassphraseDeriver.derive_key, hfail]
  · intro q r hpq hrec
    subst hrec
    simp [KeyManager.unlock, hpk, hpriv, PassphraseDeriver.derive_key,
      KeyManager.generatedRecord, aesgcmEncrypt, aesgcmDecrypt, Ne.symm hpq]

/-- Witness for C4: unlocking the sample keystore (generated under
`"old-pass"`) with `"wrong-pass"` returns `False` and leaves the state
unchanged. -/
theorem unlock_wrong_passphrase_returns_false_witness :
    KeyManager.unlock sampleKMStateWithKeys "wrong-pass" =
      .ok (false, sampleKMStateWithKeys) :=
  (unlock_wrong_passphrase_returns_false sampleKMStateWithKeys
      (KeyManager.generatedRecord "old-pass" sampleGenRand) rfl rfl
      "wrong-pass").2 "old-pass" sampleGenRand (by decide) rfl

/-- **C5 counterexample.** The claim says a failed unlock causes no
state transition for both components.  For `HoeilaartVault` it does: at
this concrete unlocked state, `unlock` with a wrong passphrase returns
`False` **and clears the in-memory cache** (its `except` branch sets
`self._cached_mappings = None`), so the vault transitions from
`Unlocked` to `Locked`. -/
theorem failed_unlock_clears_legacy_cache_counterexample :
    HoeilaartVault.is_unlocked sampleUnlockedHV = true ∧
    (HoeilaartVault.unlock sampleUnlockedHV "wrong-pass").1 = false ∧
    HoeilaartVault.is_unlocked
      (HoeilaartVault.unlock sampleUnlockedHV "wrong-pass").2 = false := by
  refine ⟨rfl, ?_, ?_⟩ <;> decide

/-- **C5 amended.** A failed `KeyManager.unlock` causes no state
transition: whenever it returns `False` the state is unchanged.  For
`HoeilaartVault`, a failed unlock with no persisted mapping file leaves
the state unchanged, but a failed decryption of a persisted mapping
file clears the in-memory cache — an `Unlocked` legacy vault becomes
`Locked`. -/
theorem failed_unlock_state_transitions :
    (∀ (s : KMState) (p : String) (s' : KMState),
       KeyManager.unlock s p = .ok (false, s') → s' = s) ∧
    (∀ (s : HVState) (p : String), s.mapping_file = none →
       HoeilaartVault.unlock s p = (false, s)) ∧
    (∀ (s : HVState) (p : String) (blob : LegacyBlob),
       s.mapping_file = some blob →
       aesgcmDecrypt (.pbkdf2Sha256 p blob.salt 100000) blob.nonce
         blob.ciphertext = none →
       HoeilaartVault.unlock s p = (false, { s with cached_mappings := none })) := by
  refine ⟨?_, ?_, ?_⟩
  · intro s p s' hk
    cases hpf : s.public_key_file with
    | none => simp [KeyManager.unlock, hpf] at hk
    | some pk =>
      cases hsf : s.private_key_file with
      | none => simp [KeyManager.unlock, hpf, hsf] at hk
      | some record =>
        cases hdec : aesgcmDecrypt ((PassphraseDeriver.derive_key p record.salt).1)
            record.nonce record.ciphertext with
        | none =>
          simp [KeyManager.unlock, hpf, hsf, hdec] at hk
          exact hk.symm
        | some raw =>
          cases hfpb : X25519PrivateKey.from_private_bytes raw with
          | none =>
            simp [KeyManager.unlock, hpf, hsf, hdec, hfpb] at hk
            exact hk.symm
          | some key =>
            simp [KeyManager.unlock, hpf, hsf, hdec, hfpb] at hk
  · intro s p hm
    simp [HoeilaartVault.unlock, hm]
  · intro s p blob hm hd
    simp [HoeilaartVault.unlock, hm, HoeilaartVault.derive_key, hd]

/-- Witness for C5 (amended): at the concrete unlocked legacy state, a
failing unlock produces exactly the cache-cleared state. -/
theorem failed_unlock_state_transitions_witness :
    HoeilaartVault.unlock sampleUnlockedHV "wrong-pass" =
      (false, { sampleUnlockedHV with cached_mappings := none }) :=
  failed_unlock_state_transitions.2.2 sampleUnlockedHV "wrong-pass"
    sampleLegacyStore rfl (by decide)

/-- **C6 counterexample.** The claim says `LocalVaultCache.save` writes
to a temporary path and then renames it over the cache file.  At this
concrete call the trace of file-system operations contains no rename at
all: it is a single direct `write_text` to the cache path. -/
theorem save_is_not_write_temp_then_rename_counterexample :
    ¬ ∃ (tmp : String) (content : Val), tmp ≠ "mapping_cache.enc" ∧
      (LocalVaultCache.save "mapping_cache.enc" sampleMapping (.bytes [30]) [31]
          (some (.vstr "old-content"))).1 =
        [FsOp.writeText tmp content, FsOp.rename tmp "mapping_cache.enc"] := by
  rintro ⟨tmp, content, -, heq⟩
  simp [LocalVaultCache.save] at heq

/-- **C6 amended.** `LocalVaultCache.save` persists the encrypted cache
with a single direct `write_text` to the cache path — no temporary
file and no rename — and any prior cache content is overwritten by the
new ciphertext record. -/
theorem save_writes_cache_directly (cache_path : String)
    (mapping encryption_key : Val) (rnonce : List Nat) (prior : Option Val) :
    LocalVaultCache.save cache_path mapping encryption_key rnonce prior =
      ([FsOp.writeText cache_path
          (LocalVaultCache.cacheFileContent (.bytes rnonce)
            (aesgcmEncrypt encryption_key (.bytes rnonce) (jsonDumps mapping)))],
       some (LocalVaultCache.cacheFileContent (.bytes rnonce)
         (aesgcmEncrypt encryption_key (.bytes rnonce) (jsonDumps mapping)))) :=
  rfl

/-- **C7.** `LocalVaultCache.load` is a total function (no failure
escapes its `try`) and returns `none` in every failure case: missing
cache file; file content that fails JSON parsing (any truncated or
malformed file, including one shorter than the nonce length); a parsed
dict missing the `"nonce"` field; and a well-formed cache file
encrypted under a different key. -/
theorem load_returns_none_on_all_failures (encryption_key : Val) :
    LocalVaultCache.load none encryption_key = none ∧
    (∀ text : Val, jsonLoads text = none →
       LocalVaultCache.load (some text) encryption_key = none) ∧
    (∀ kvs : ValFields, kvs.lookup "nonce" = none →
       LocalVaultCache.load (some (jsonDumps (.vobj kvs))) encryption_key = none) ∧
    (∀ (mapping save_key : Val) (rnonce : List Nat),
       save_key ≠ encryption_key →
       LocalVaultCache.load
         (some (LocalVaultCache.cacheFileContent (.bytes rnonce)
           (aesgcmEncrypt save_key (.bytes rnonce) (jsonDumps mapping))))
         encryption_key = none) := by
  refine ⟨rfl, ?_, ?_, ?_⟩
  · intro text h
    simp [LocalVaultCache.load, h]
  · intro kvs h
    simp [LocalVaultCache.load, jsonDumps, jsonLoads, h]
  · intro mapping save_key rnonce hne
    simp [LocalVaultCache.load, LocalVaultCache.cacheFileContent, jsonDumps,
      jsonLoads, b64encode, b64decode, ValFields.lookup, aesgcmEncrypt,
      aesgcmDecrypt, hne]

/-- Witness for C7: loading a cache saved under one key with a
different key yields `none`. -/
theorem load_returns_none_on_all_failures_witness :
    LocalVaultCache.load
      (some (LocalVaultCache.cacheFileContent (.bytes [31])
        (aesgcmEncrypt (.bytes [30]) (.bytes [31]) (jsonDumps sampleMapping))))
      (.bytes [99]) = none :=
  (load_returns_none_on_all_failures (.bytes [99])).2.2.2 sampleMapping
    (.bytes [30]) [31] (by decide)

/-- **C9.** For every legacy blob of layout
`salt(16) ‖ nonce(12) ‖ ciphertext` encrypted under `password`,
`decrypt_original_file` with any altered password raises a
`DecryptionFailure` error (wrong password and corrupted file share the
same error), and with the correct password returns the record list,
whose records carry exactly the expected field set whenever the tool
wrote well-formed records. -/
theorem decrypt_original_file_behaviour (records : ValList)
    (salt nonce : List Nat) (password : String)
    (hw : recordsHaveExactFields records = true) :
    (∀ wrong : String, wrong ≠ password →
       ∃ msg, HoeilaartVault.decrypt_original_file
         (legacyToolBlob records salt nonce password) wrong = .error msg) ∧
    (HoeilaartVault.decrypt_original_file
       (legacyToolBlob records salt nonce password) password =
         .ok (.varr records) ∧
     recordsHaveExactFields records = true) := by
  constructor
  · intro wrong hne
    refine ⟨"Decryption failed: InvalidTag. Check if the password is correct.", ?_⟩
    simp [HoeilaartVault.decrypt_original_file, legacyToolBlob,
      HoeilaartVault.derive_key, aesgcmEncrypt, aesgcmDecrypt, Ne.symm hne]
  · refine ⟨?_, hw⟩
    simp [HoeilaartVault.decrypt_original_file, legacyToolBlob,
      HoeilaartVault.derive_key, aesgcmEncrypt, aesgcmDecrypt,
      jsonDumps, jsonLoads]

/-- Witness for C9 at a concrete record list, blob and password. -/
theorem decrypt_original_file_behaviour_witness :
    recordsHaveExactFields sampleLegacyRecords = true ∧
    HoeilaartVault.decrypt_original_file
      (legacyToolBlob sampleLegacyRecords [40] [41] "practice-pass")
      "practice-pass" = .ok (.varr sampleLegacyRecords) :=
  ⟨by rfl,
   (decrypt_original_file_behaviour sampleLegacyRecords [40] [41]
     "practice-pass" (by rfl)).2.1⟩

/-- Witness for C10 at a concrete vault. -/
theorem vault_wire_format_roundtrip_witness :
    isJson sampleMetadata = true ∧
    EncryptedVault.from_dict
      (EncryptedVault.to_dict
        ⟨.bytes [1], .bytes [2], .bytes [3], .bytes [4], sampleMetadata⟩) =
      some ⟨.bytes [1], .bytes [2], .bytes [3], .bytes [4], sampleMetadata⟩ :=
  ⟨by rfl,
   (vault_wire_format_roundtrip
     ⟨.bytes [1], .bytes [2], .bytes [3], .bytes [4], sampleMetadata⟩
     (by rfl)).1⟩

end Cerebro
